import Mathlib

/-!
Verification development for the CAD-AI-Lab impactor design engine.

The Python sources are shallowly embedded: floats are modelled as real
numbers, fallible code (host-language division by zero raising
ZeroDivisionError) is modelled with `Except`, and the external geometry
kernel's solids are modelled symbolically as records holding exactly the
dimension parameters the source passes to the kernel.
-/

/-- Possible runtime failures of the embedded Python code.  The source
defines no error classes of its own; the only failure the solver can hit
is the host language's division-by-zero error. -/
inductive SolverError : Type
  | zeroDivision : SolverError
deriving DecidableEq

/-- `PhysicsSolver.__init__` default: air dynamic viscosity (Pa·s). -/
noncomputable def air_viscosity : ℝ := 1.81e-5

/-- `PhysicsSolver.__init__` default: air density (kg/m³). -/
noncomputable def rho_air : ℝ := 1.2

/-- `PhysicsSolver.__init__` default: particle density (kg/m³). -/
noncomputable def particle_density_kgm3 : ℝ := 1000.0

/-- The operand of the cube root in `PhysicsSolver.calculate_nozzle_diameter`
(`num / den` in the source). -/
noncomputable def nozzle_operand (flow_rate_lpm target_cutpoint_microns : ℝ)
    (nozzle_count : ℕ) (stk_50 : ℝ) : ℝ :=
  let q_m3s := (flow_rate_lpm / 1000.0) / 60.0
  let d50_m := target_cutpoint_microns * 1e-6
  (4.0 * particle_density_kgm3 * d50_m ^ 2 * q_m3s) /
    (9.0 * Real.pi * air_viscosity * stk_50 * (nozzle_count : ℝ))

/-- `PhysicsSolver.calculate_nozzle_diameter`.  The Python body is
`(num / den) ** (1/3)`; dividing by a zero denominator raises
ZeroDivisionError in the host language, modelled as `Except.error`. -/
noncomputable def calculate_nozzle_diameter (flow_rate_lpm target_cutpoint_microns : ℝ)
    (nozzle_count : ℕ) (stk_50 : ℝ) : Except SolverError ℝ :=
  if 9.0 * Real.pi * air_viscosity * stk_50 * (nozzle_count : ℝ) = 0 then
    .error .zeroDivision
  else
    .ok (nozzle_operand flow_rate_lpm target_cutpoint_microns nozzle_count stk_50 ^ ((1 : ℝ) / 3))

/-- The value `calculate_nozzle_diameter` returns on its non-error path. -/
noncomputable def nozzle_diam_val (flow_rate_lpm target_cutpoint_microns : ℝ)
    (nozzle_count : ℕ) (stk_50 : ℝ) : ℝ :=
  nozzle_operand flow_rate_lpm target_cutpoint_microns nozzle_count stk_50 ^ ((1 : ℝ) / 3)

/-- Jet velocity computed by `PhysicsSolver.calculate_reynolds`. -/
noncomputable def jet_velocity_val (flow_rate_lpm : ℝ) (nozzle_count : ℕ)
    (nozzle_diam_m : ℝ) : ℝ :=
  ((flow_rate_lpm / 1000.0) / 60.0) /
    ((nozzle_count : ℝ) * Real.pi * (nozzle_diam_m / 2) ^ 2)

/-- Reynolds number computed by `PhysicsSolver.calculate_reynolds`. -/
noncomputable def reynolds_val (flow_rate_lpm : ℝ) (nozzle_count : ℕ)
    (nozzle_diam_m : ℝ) : ℝ :=
  (rho_air * jet_velocity_val flow_rate_lpm nozzle_count nozzle_diam_m * nozzle_diam_m) /
    air_viscosity

/-- `PhysicsSolver.calculate_reynolds`: returns `(re, jet_velocity)`;
`q_m3s / jet_area_m2` raises ZeroDivisionError when the jet area is zero. -/
noncomputable def calculate_reynolds (flow_rate_lpm : ℝ) (nozzle_count : ℕ)
    (nozzle_diam_m : ℝ) : Except SolverError (ℝ × ℝ) :=
  if (nozzle_count : ℝ) * Real.pi * (nozzle_diam_m / 2) ^ 2 = 0 then
    .error .zeroDivision
  else
    .ok (reynolds_val flow_rate_lpm nozzle_count nozzle_diam_m,
         jet_velocity_val flow_rate_lpm nozzle_count nozzle_diam_m)

/-- The dictionary returned by `PhysicsSolver.get_geometric_constraints`. -/
structure GeometricConstraints : Type where
  nozzle_diameter_mm : ℝ
  jet_velocity_ms : ℝ
  reynolds_number : ℝ
  jet_to_plate_mm : ℝ
  throat_length_mm : ℝ

/-- `PhysicsSolver.get_geometric_constraints` (nozzle diameter solved with
the default `stk_50 = 0.24`). -/
noncomputable def get_geometric_constraints (flow_rate_lpm target_cutpoint_microns : ℝ)
    (nozzle_count : ℕ) (s_w_ratio t_w_ratio : ℝ) :
    Except SolverError GeometricConstraints := do
  let d_m ← calculate_nozzle_diameter flow_rate_lpm target_cutpoint_microns nozzle_count 0.24
  let d_mm := d_m * 1000.0
  let rv ← calculate_reynolds flow_rate_lpm nozzle_count d_m
  return { nozzle_diameter_mm := d_mm
           jet_velocity_ms := rv.2
           reynolds_number := rv.1
           jet_to_plate_mm := d_mm * s_w_ratio
           throat_length_mm := d_mm * t_w_ratio }

/-- The record `get_geometric_constraints` returns on its non-error path. -/
noncomputable def constraints_val (flow_rate_lpm target_cutpoint_microns : ℝ)
    (nozzle_count : ℕ) (s_w_ratio t_w_ratio : ℝ) : GeometricConstraints :=
  let d_m := nozzle_diam_val flow_rate_lpm target_cutpoint_microns nozzle_count 0.24
  let d_mm := d_m * 1000.0
  { nozzle_diameter_mm := d_mm
    jet_velocity_ms := jet_velocity_val flow_rate_lpm nozzle_count d_m
    reynolds_number := reynolds_val flow_rate_lpm nozzle_count d_m
    jet_to_plate_mm := d_mm * s_w_ratio
    throat_length_mm := d_mm * t_w_ratio }

lemma nozzle_den_pos {stk_50 : ℝ} {nozzle_count : ℕ} (hstk : 0 < stk_50)
    (hN : nozzle_count ≠ 0) :
    0 < 9.0 * Real.pi * air_viscosity * stk_50 * (nozzle_count : ℝ) := by
  have hπ := Real.pi_pos
  have hN' : (0 : ℝ) < (nozzle_count : ℝ) := by
    exact_mod_cast Nat.pos_of_ne_zero hN
  have hμ : (0 : ℝ) < air_viscosity := by unfold air_viscosity; norm_num
  positivity

lemma calculate_nozzle_diameter_ok {stk_50 : ℝ} {nozzle_count : ℕ}
    (flow_rate_lpm target_cutpoint_microns : ℝ) (hstk : 0 < stk_50)
    (hN : nozzle_count ≠ 0) :
    calculate_nozzle_diameter flow_rate_lpm target_cutpoint_microns nozzle_count stk_50 =
      .ok (nozzle_diam_val flow_rate_lpm target_cutpoint_microns nozzle_count stk_50) := by
  unfold calculate_nozzle_diameter nozzle_diam_val
  rw [if_neg (ne_of_gt (nozzle_den_pos hstk hN))]

lemma nozzle_operand_pos {flow_rate_lpm target_cutpoint_microns stk_50 : ℝ}
    {nozzle_count : ℕ} (hf : 0 < flow_rate_lpm) (hc : target_cutpoint_microns ≠ 0)
    (hN : nozzle_count ≠ 0) (hstk : 0 < stk_50) :
    0 < nozzle_operand flow_rate_lpm target_cutpoint_microns nozzle_count stk_50 := by
  unfold nozzle_operand
  have hden := nozzle_den_pos hstk hN
  have hnum : 0 < 4.0 * particle_density_kgm3 *
      (target_cutpoint_microns * 1e-6) ^ 2 * ((flow_rate_lpm / 1000.0) / 60.0) := by
    have hd : target_cutpoint_microns * 1e-6 ≠ 0 := by
      intro h
      rcases mul_eq_zero.mp h with h' | h'
      · exact hc h'
      · norm_num at h'
    have hρ : (0 : ℝ) < particle_density_kgm3 := by
      unfold particle_density_kgm3; norm_num
    positivity
  exact div_pos hnum hden

lemma nozzle_diam_val_pos {flow_rate_lpm target_cutpoint_microns stk_50 : ℝ}
    {nozzle_count : ℕ} (hf : 0 < flow_rate_lpm) (hc : target_cutpoint_microns ≠ 0)
    (hN : nozzle_count ≠ 0) (hstk : 0 < stk_50) :
    0 < nozzle_diam_val flow_rate_lpm target_cutpoint_microns nozzle_count stk_50 :=
  Real.rpow_pos_of_pos (nozzle_operand_pos hf hc hN hstk) _

lemma calculate_reynolds_ok {nozzle_count : ℕ} {nozzle_diam_m : ℝ}
    (flow_rate_lpm : ℝ) (hN : nozzle_count ≠ 0) (hd : nozzle_diam_m ≠ 0) :
    calculate_reynolds flow_rate_lpm nozzle_count nozzle_diam_m =
      .ok (reynolds_val flow_rate_lpm nozzle_count nozzle_diam_m,
           jet_velocity_val flow_rate_lpm nozzle_count nozzle_diam_m) := by
  unfold calculate_reynolds
  rw [if_neg]
  intro h
  rcases mul_eq_zero.mp h with h' | h'
  · rcases mul_eq_zero.mp h' with h'' | h''
    · exact hN (by exact_mod_cast h'')
    · exact Real.pi_ne_zero h''
  · have : nozzle_diam_m / 2 = 0 := sq_eq_zero_iff.mp h'
    exact hd (by linarith [this])

lemma get_geometric_constraints_ok {flow_rate_lpm target_cutpoint_microns : ℝ}
    {nozzle_count : ℕ} (s_w_ratio t_w_ratio : ℝ) (hf : 0 < flow_rate_lpm)
    (hc : target_cutpoint_microns ≠ 0) (hN : nozzle_count ≠ 0) :
    get_geometric_constraints flow_rate_lpm target_cutpoint_microns nozzle_count
        s_w_ratio t_w_ratio =
      .ok (constraints_val flow_rate_lpm target_cutpoint_microns nozzle_count
        s_w_ratio t_w_ratio) := by
  unfold get_geometric_constraints constraints_val
  rw [calculate_nozzle_diameter_ok _ _ (by norm_num) hN]
  have hd := nozzle_diam_val_pos hf hc hN (show (0:ℝ) < 0.24 by norm_num)
  rw [show (Except.ok (nozzle_diam_val flow_rate_lpm target_cutpoint_microns nozzle_count 0.24) >>= fun d_m =>
        calculate_reynolds flow_rate_lpm nozzle_count d_m >>= fun rv =>
          pure { nozzle_diameter_mm := d_m * 1000.0
                 jet_velocity_ms := rv.2
                 reynolds_number := rv.1
                 jet_to_plate_mm := d_m * 1000.0 * s_w_ratio
                 throat_length_mm := d_m * 1000.0 * t_w_ratio } :
        Except SolverError GeometricConstraints) =
      (calculate_reynolds flow_rate_lpm nozzle_count
        (nozzle_diam_val flow_rate_lpm target_cutpoint_microns nozzle_count 0.24) >>= fun rv =>
          pure { nozzle_diameter_mm := nozzle_diam_val flow_rate_lpm target_cutpoint_microns nozzle_count 0.24 * 1000.0
                 jet_velocity_ms := rv.2
                 reynolds_number := rv.1
                 jet_to_plate_mm := nozzle_diam_val flow_rate_lpm target_cutpoint_microns nozzle_count 0.24 * 1000.0 * s_w_ratio
                 throat_length_mm := nozzle_diam_val flow_rate_lpm target_cutpoint_microns nozzle_count 0.24 * 1000.0 * t_w_ratio }) from rfl]
  rw [calculate_reynolds_ok _ hN (ne_of_gt hd)]
  rfl

/-- `config.CassetteProfile` (a frozen dataclass in the source; immutability
is mirrored by this being a plain structure). -/
structure CassetteProfile : Type where
  outer_diameter : ℝ
  inner_flow_diameter : ℝ
  male_boss_diameter : ℝ
  female_socket_diameter : ℝ
  interface_height : ℝ
  wall_thickness : ℝ

/-- `config.STANDARD_37MM`. -/
noncomputable def STANDARD_37MM : CassetteProfile :=
  { outer_diameter := 42.0
    inner_flow_diameter := 34.0
    male_boss_diameter := 37.4
    female_socket_diameter := 37.2
    interface_height := 5.0
    wall_thickness := 2.0 }

/-- `config.MINIATURE_25MM`. -/
noncomputable def MINIATURE_25MM : CassetteProfile :=
  { outer_diameter := 26.0
    inner_flow_diameter := 22.0
    male_boss_diameter := 24.0
    female_socket_diameter := 24.2
    interface_height := 3.0
    wall_thickness := 2.0 }

/-- Symbolic model of the solid built by `CADTemplates.nozzle_plate`: the
disc's dimensions and the circular bores subtracted from it.  `bore_depth`
records the `extrude(amount=thickness, mode=Mode.SUBTRACT)` depth;
`bore_circle_radius` is the `PolarLocations` placement radius (0 for the
single central bore). -/
structure NozzlePlate : Type where
  diameter : ℝ
  thickness : ℝ
  bore_diameter : ℝ
  bore_count : ℕ
  bore_circle_radius : ℝ
  bore_depth : ℝ

/-- `CADTemplates.nozzle_plate`. -/
noncomputable def nozzle_plate (diameter thickness nozzle_diam : ℝ)
    (nozzle_count : ℕ) : NozzlePlate :=
  if nozzle_count = 1 then
    { diameter := diameter, thickness := thickness, bore_diameter := nozzle_diam,
      bore_count := 1, bore_circle_radius := 0, bore_depth := thickness }
  else
    { diameter := diameter, thickness := thickness, bore_diameter := nozzle_diam,
      bore_count := nozzle_count, bore_circle_radius := nozzle_diam * 1.5,
      bore_depth := thickness }

/-- Symbolic model of the solid built by `CADTemplates.impaction_body`. -/
structure BodySpec : Type where
  od : ℝ
  id_flow : ℝ
  height : ℝ
  boss_od : ℝ
  boss_height : ℝ
  socket_id : ℝ
  socket_depth : ℝ

/-- `CADTemplates.impaction_body`. -/
noncomputable def impaction_body (od id_flow height boss_od boss_height
    socket_id socket_depth : ℝ) : BodySpec :=
  { od := od, id_flow := id_flow, height := height, boss_od := boss_od,
    boss_height := boss_height, socket_id := socket_id, socket_depth := socket_depth }

/-- Symbolic model of the solid built by `CADTemplates.impaction_cup`. -/
structure CupSpec : Type where
  radius : ℝ
  rim_height : ℝ
  floor_thickness : ℝ
  wall_thickness : ℝ

/-- `CADTemplates.impaction_cup`. -/
noncomputable def impaction_cup (radius rim_height floor_thickness wall_thickness : ℝ) :
    CupSpec :=
  { radius := radius, rim_height := rim_height, floor_thickness := floor_thickness,
    wall_thickness := wall_thickness }

/-- One radial support bar produced by `CADTemplates.add_struts`:
a `Rectangle(width=span, height=width)` placed by `PolarLocations` at
`angle` (degrees) on the circle of radius `center_radius`, at plane offset
`z_pos`, extruded by `thickness`. -/
structure Strut : Type where
  angle : ℝ
  center_radius : ℝ
  span : ℝ
  width : ℝ
  thickness : ℝ
  z_pos : ℝ

/-- The list of bars `CADTemplates.add_struts` creates: `PolarLocations`
places `count` copies evenly spaced by `360 / count` degrees starting at
angle 0, and the source computes `span = outer_radius - inner_radius + 2.0`. -/
noncomputable def strut_bars (inner_radius outer_radius z_pos : ℝ) (count : ℕ)
    (width thickness : ℝ) : List Strut :=
  let span := outer_radius - inner_radius + 2.0
  (List.range count).map fun (i : ℕ) =>
    { angle := (i : ℝ) * (360 / (count : ℝ))
      center_radius := (inner_radius + outer_radius) / 2
      span := span, width := width, thickness := thickness, z_pos := z_pos }

/-- `CADTemplates.add_struts`: the input part (of any solid type) is returned
unioned with the strut bars. -/
noncomputable def add_struts {α : Type} (part : α) (inner_radius outer_radius
    z_pos : ℝ) (count : ℕ) (width thickness : ℝ) : α × List Strut :=
  (part, strut_bars inner_radius outer_radius z_pos count width thickness)

/-- The `"metadata"` dictionary returned by
`AgenticCADSystem.generate_impactor_stage`. -/
structure StageMetadata : Type where
  stage_name : String
  body_height : ℝ
  cup_floor_z : ℝ

/-- The composed stage solid: body plus cup placed at `cup_z`, plus struts. -/
structure StageAssembly : Type where
  body : BodySpec
  cup : CupSpec
  cup_z : ℝ
  struts : List Strut

/-- The dictionary returned by `AgenticCADSystem.generate_impactor_stage`. -/
structure StageResult : Type where
  assembly : StageAssembly
  nozzle : NozzlePlate
  constraints : GeometricConstraints
  metadata : StageMetadata

/-- `AgenticCADSystem.generate_impactor_stage`.  The engine calls
`get_geometric_constraints(flow_rate_lpm, target_cutpoint)` with the default
`nozzle_count = 1`, `s_w_ratio = 1.5`, `t_w_ratio = 1.0`, then derives every
dimension from the returned constraints; it performs no feasibility check. -/
noncomputable def generate_impactor_stage (profile : CassetteProfile)
    (flow_rate_lpm target_cutpoint : ℝ) (stage_name : String) :
    Except SolverError StageResult := do
  let constraints ← get_geometric_constraints flow_rate_lpm target_cutpoint 1 1.5 1.0
  let d_mm := constraints.nozzle_diameter_mm
  let s_mm := constraints.jet_to_plate_mm
  let t_mm := constraints.throat_length_mm
  let nozzle := nozzle_plate profile.female_socket_diameter t_mm d_mm 1
  let clearance_margin := 10.0
  let body_height := s_mm + clearance_margin
  let body := impaction_body profile.outer_diameter profile.inner_flow_diameter
    body_height profile.male_boss_diameter profile.interface_height
    profile.female_socket_diameter profile.interface_height
  let cup_radius := d_mm * 3.0
  let cup := impaction_cup cup_radius 3.0 2.0 1.0
  let nozzle_exit_z := body_height - profile.interface_height
  let cup_floor_z := nozzle_exit_z - s_mm
  let strutted := add_struts (body, cup, cup_floor_z) cup_radius
    (profile.inner_flow_diameter / 2) cup_floor_z 3 2.0 2.0
  return { assembly := { body := body, cup := cup, cup_z := cup_floor_z,
                         struts := strutted.2 }
           nozzle := nozzle
           constraints := constraints
           metadata := { stage_name := stage_name, body_height := body_height,
                         cup_floor_z := cup_floor_z } }

/-- The record `generate_impactor_stage` returns on its non-error path. -/
noncomputable def stage_val (profile : CassetteProfile)
    (flow_rate_lpm target_cutpoint : ℝ) (stage_name : String) : StageResult :=
  let constraints := constraints_val flow_rate_lpm target_cutpoint 1 1.5 1.0
  let d_mm := constraints.nozzle_diameter_mm
  let s_mm := constraints.jet_to_plate_mm
  let t_mm := constraints.throat_length_mm
  let nozzle := nozzle_plate profile.female_socket_diameter t_mm d_mm 1
  let clearance_margin := 10.0
  let body_height := s_mm + clearance_margin
  let body := impaction_body profile.outer_diameter profile.inner_flow_diameter
    body_height profile.male_boss_diameter profile.interface_height
    profile.female_socket_diameter profile.interface_height
  let cup_radius := d_mm * 3.0
  let cup := impaction_cup cup_radius 3.0 2.0 1.0
  let nozzle_exit_z := body_height - profile.interface_height
  let cup_floor_z := nozzle_exit_z - s_mm
  let strutted := add_struts (body, cup, cup_floor_z) cup_radius
    (profile.inner_flow_diameter / 2) cup_floor_z 3 2.0 2.0
  { assembly := { body := body, cup := cup, cup_z := cup_floor_z,
                  struts := strutted.2 }
    nozzle := nozzle
    constraints := constraints
    metadata := { stage_name := stage_name, body_height := body_height,
                  cup_floor_z := cup_floor_z } }

lemma generate_impactor_stage_ok {flow_rate_lpm target_cutpoint : ℝ}
    (profile : CassetteProfile) (stage_name : String) (hf : 0 < flow_rate_lpm)
    (hc : target_cutpoint ≠ 0) :
    generate_impactor_stage profile flow_rate_lpm target_cutpoint stage_name =
      .ok (stage_val profile flow_rate_lpm target_cutpoint stage_name) := by
  unfold generate_impactor_stage stage_val
  rw [get_geometric_constraints_ok 1.5 1.0 hf hc (by norm_num)]
  rfl

/-- The stage label `create_impactor.create_multi_stage_impactor` builds:
`f"stage_{i+1}_{cp}um"`.  Host-language float formatting is external; it is
abstracted by the `render` parameter. -/
noncomputable def stage_label (i : ℕ) (cp : ℝ) (render : ℝ → String) : String :=
  "stage_" ++ toString (i + 1) ++ "_" ++ render cp ++ "um"

/-- `create_impactor.create_multi_stage_impactor`: one
`generate_impactor_stage` call per cutpoint, in input order, on the
hard-coded `STANDARD_37MM` profile.  The STL export of each stage is
external I/O; the list of generated stages (in export order) is returned. -/
noncomputable def create_multi_stage_impactor (render : ℝ → String)
    (flow_rate : ℝ) (cutpoints : List ℝ) : Except SolverError (List StageResult) :=
  cutpoints.enum.mapM fun ic =>
    generate_impactor_stage STANDARD_37MM flow_rate ic.2 (stage_label ic.1 ic.2 render)

lemma mapM_stage_ok {flow_rate : ℝ} (render : ℝ → String) (hf : 0 < flow_rate) :
    ∀ l : List (ℕ × ℝ), (∀ p ∈ l, (0 : ℝ) < p.2) →
      (l.mapM fun ic =>
        generate_impactor_stage STANDARD_37MM flow_rate ic.2 (stage_label ic.1 ic.2 render)) =
      .ok (l.map fun ic =>
        stage_val STANDARD_37MM flow_rate ic.2 (stage_label ic.1 ic.2 render)) := by
  intro l
  induction l with
  | nil => intro _; rfl
  | cons a l ih =>
    intro h
    rw [List.mapM_cons, generate_impactor_stage_ok _ _ hf
      (ne_of_gt (h a (List.mem_cons_self a l))),
      ih (fun p hp => h p (List.mem_cons_of_mem a hp))]
    rfl

lemma create_multi_stage_impactor_ok {flow_rate : ℝ} (render : ℝ → String)
    (cutpoints : List ℝ) (hf : 0 < flow_rate) (hall : ∀ cp ∈ cutpoints, 0 < cp) :
    create_multi_stage_impactor render flow_rate cutpoints =
      .ok (cutpoints.enum.map fun ic =>
        stage_val STANDARD_37MM flow_rate ic.2 (stage_label ic.1 ic.2 render)) := by
  unfold create_multi_stage_impactor
  exact mapM_stage_ok render hf cutpoints.enum
    (fun p hp => hall p.2 (List.snd_mem_of_mem_enum hp))

lemma cube_rpow_third {c : ℝ} (hc : 0 ≤ c) : ((c ^ 3 : ℝ)) ^ ((1 : ℝ) / 3) = c := by
  rw [← Real.rpow_natCast c 3, ← Real.rpow_mul hc]
  norm_num

lemma rpow_third_lt_of_lt_cube {x c : ℝ} (hx : 0 ≤ x) (hc : 0 < c) (h : x < c ^ 3) :
    x ^ ((1 : ℝ) / 3) < c := by
  calc x ^ ((1 : ℝ) / 3) < (c ^ 3) ^ ((1 : ℝ) / 3) :=
        Real.rpow_lt_rpow hx h (by norm_num)
    _ = c := cube_rpow_third hc.le

lemma lt_rpow_third_of_cube_lt {x c : ℝ} (hc : 0 ≤ c) (h : c ^ 3 < x) :
    c < x ^ ((1 : ℝ) / 3) := by
  calc c = (c ^ 3) ^ ((1 : ℝ) / 3) := (cube_rpow_third hc).symm
    _ < x ^ ((1 : ℝ) / 3) := Real.rpow_lt_rpow (by positivity) h (by norm_num)

lemma nozzle_operand_pi_form (f c : ℝ) :
    nozzle_operand f c 1 0.24 =
      (4.0 * 1000.0 * (c * 1e-6) ^ 2 * ((f / 1000.0) / 60.0)) /
        (3.9096e-5 * Real.pi) := by
  unfold nozzle_operand air_viscosity particle_density_kgm3
  have hden : 9.0 * Real.pi * (1.81e-5 : ℝ) * 0.24 * ((1 : ℕ) : ℝ) =
      3.9096e-5 * Real.pi := by
    push_cast
    ring_nf
  rw [hden]

lemma operand45_gt : (5.4277e-8 : ℝ) < nozzle_operand 4 5 1 0.24 := by
  have hπ : Real.pi < 3.141593 := Real.pi_lt_d6
  have hπ0 := Real.pi_pos
  rw [nozzle_operand_pi_form, lt_div_iff₀ (by positivity)]
  nlinarith [hπ, hπ0]

lemma operand45_lt : nozzle_operand 4 5 1 0.24 < (5.4279e-8 : ℝ) := by
  have hπ : (3.141592 : ℝ) < Real.pi := Real.pi_gt_d6
  have hπ0 := Real.pi_pos
  rw [nozzle_operand_pi_form, div_lt_iff₀ (by positivity)]
  nlinarith [hπ, hπ0]

lemma operand410_gt : (2.17112e-7 : ℝ) < nozzle_operand 4 10 1 0.24 := by
  have hπ : Real.pi < 3.141593 := Real.pi_lt_d6
  have hπ0 := Real.pi_pos
  rw [nozzle_operand_pi_form, lt_div_iff₀ (by positivity)]
  nlinarith [hπ, hπ0]

lemma operand410_lt : nozzle_operand 4 10 1 0.24 < (2.17115e-7 : ℝ) := by
  have hπ : (3.141592 : ℝ) < Real.pi := Real.pi_gt_d6
  have hπ0 := Real.pi_pos
  rw [nozzle_operand_pi_form, div_lt_iff₀ (by positivity)]
  nlinarith [hπ, hπ0]

lemma d45_gt : (0.0037521 : ℝ) < nozzle_diam_val 4 5 1 0.24 := by
  unfold nozzle_diam_val
  apply lt_rpow_third_of_cube_lt (by norm_num)
  calc (0.0037521 : ℝ) ^ 3 < 5.4277e-8 := by norm_num
    _ < _ := operand45_gt

lemma d45_lt : nozzle_diam_val 4 5 1 0.24 < (0.0038279 : ℝ) := by
  unfold nozzle_diam_val
  apply rpow_third_lt_of_lt_cube
    (le_of_lt (nozzle_operand_pos (by norm_num) (by norm_num) (by norm_num) (by norm_num)))
    (by norm_num)
  calc nozzle_operand 4 5 1 0.24 < 5.4279e-8 := operand45_lt
    _ < (0.0038279 : ℝ) ^ 3 := by norm_num

lemma d410_gt : (0.0059499 : ℝ) < nozzle_diam_val 4 10 1 0.24 := by
  unfold nozzle_diam_val
  apply lt_rpow_third_of_cube_lt (by norm_num)
  calc (0.0059499 : ℝ) ^ 3 < 2.17112e-7 := by norm_num
    _ < _ := operand410_gt

lemma d410_lt : nozzle_diam_val 4 10 1 0.24 < (0.0060701 : ℝ) := by
  unfold nozzle_diam_val
  apply rpow_third_lt_of_lt_cube
    (le_of_lt (nozzle_operand_pos (by norm_num) (by norm_num) (by norm_num) (by norm_num)))
    (by norm_num)
  calc nozzle_operand 4 10 1 0.24 < 2.17115e-7 := operand410_lt
    _ < (0.0060701 : ℝ) ^ 3 := by norm_num

/-- C1: for every successful `generate_impactor_stage` call with positive
flow rate and cutpoint, the returned metadata satisfies the
assembly-consistency invariant: `body_height = jet_to_plate_mm + 10.0`
(the fixed clearance margin), and
`cup_floor_z = (body_height - interface_height) - jet_to_plate_mm`
(nozzle exit flush with the socket floor), hence
`|cup_floor_z - (body_height - interface_height - jet_to_plate_mm)| < 1e-6`. -/
theorem stage_assembly_consistency (profile : CassetteProfile)
    (flow_rate_lpm target_cutpoint : ℝ) (stage_name : String)
    (hf : 0 < flow_rate_lpm) (hc : 0 < target_cutpoint) (r : StageResult)
    (h : generate_impactor_stage profile flow_rate_lpm target_cutpoint stage_name = .ok r) :
    r.metadata.body_height = r.constraints.jet_to_plate_mm + 10.0 ∧
    r.metadata.cup_floor_z =
      (r.metadata.body_height - profile.interface_height) - r.constraints.jet_to_plate_mm ∧
    |r.metadata.cup_floor_z -
      (r.metadata.body_height - profile.interface_height - r.constraints.jet_to_plate_mm)| <
      1e-6 := by
  rw [generate_impactor_stage_ok profile stage_name hf (ne_of_gt hc)] at h
  obtain rfl := Except.ok.inj h
  refine ⟨rfl, rfl, ?_⟩
  have h0 : (stage_val profile flow_rate_lpm target_cutpoint stage_name).metadata.cup_floor_z -
      ((stage_val profile flow_rate_lpm target_cutpoint stage_name).metadata.body_height -
        profile.interface_height -
        (stage_val profile flow_rate_lpm target_cutpoint stage_name).constraints.jet_to_plate_mm)
      = 0 := by
    show ((constraints_val flow_rate_lpm target_cutpoint 1 1.5 1.0).jet_to_plate_mm + 10.0 -
        profile.interface_height -
        (constraints_val flow_rate_lpm target_cutpoint 1 1.5 1.0).jet_to_plate_mm) -
      ((constraints_val flow_rate_lpm target_cutpoint 1 1.5 1.0).jet_to_plate_mm + 10.0 -
        profile.interface_height -
        (constraints_val flow_rate_lpm target_cutpoint 1 1.5 1.0).jet_to_plate_mm) = 0
    ring
  rw [h0]
  norm_num

/-- Witness for C1 at the concrete stage (STANDARD_37MM, 4 LPM, 5 µm). -/
theorem stage_assembly_consistency_witness :
    (stage_val STANDARD_37MM 4 5 "stage").metadata.body_height =
      (stage_val STANDARD_37MM 4 5 "stage").constraints.jet_to_plate_mm + 10.0 ∧
    (stage_val STANDARD_37MM 4 5 "stage").metadata.cup_floor_z =
      ((stage_val STANDARD_37MM 4 5 "stage").metadata.body_height -
        STANDARD_37MM.interface_height) -
      (stage_val STANDARD_37MM 4 5 "stage").constraints.jet_to_plate_mm ∧
    |(stage_val STANDARD_37MM 4 5 "stage").metadata.cup_floor_z -
      ((stage_val STANDARD_37MM 4 5 "stage").metadata.body_height -
        STANDARD_37MM.interface_height -
        (stage_val STANDARD_37MM 4 5 "stage").constraints.jet_to_plate_mm)| < 1e-6 :=
  stage_assembly_consistency STANDARD_37MM 4 5 "stage" (by norm_num) (by norm_num) _
    (generate_impactor_stage_ok STANDARD_37MM "stage" (by norm_num) (by norm_num))

lemma strut_bars_length (inner_radius outer_radius z_pos : ℝ) (count : ℕ)
    (width thickness : ℝ) :
    (strut_bars inner_radius outer_radius z_pos count width thickness).length = count := by
  simp only [strut_bars, List.length_map, List.length_range]

lemma strut_bars_get (inner_radius outer_radius z_pos : ℝ) (count : ℕ)
    (width thickness : ℝ) (j : ℕ)
    (hj : j < (strut_bars inner_radius outer_radius z_pos count width thickness).length) :
    (strut_bars inner_radius outer_radius z_pos count width thickness).get ⟨j, hj⟩ =
      { angle := (j : ℝ) * (360 / (count : ℝ))
        center_radius := (inner_radius + outer_radius) / 2
        span := outer_radius - inner_radius + 2.0
        width := width, thickness := thickness, z_pos := z_pos } := by
  simp only [strut_bars, List.get_eq_getElem, List.getElem_map, List.getElem_range]

/-- C6 counterexample: with `inner_radius = 5`, `outer_radius = 10` the
strut span produced by `add_struts` is `10 - 5 + 2 = 7`, not
`outer_radius - inner_radius + 4 = 9` as the claim states. -/
theorem add_struts_span_counterexample :
    ((add_struts (0 : ℕ) 5 10 1 3 2 2).2.map Strut.span = [7, 7, 7]) ∧
    (7 : ℝ) ≠ 10 - 5 + 4 := by
  constructor
  · unfold add_struts strut_bars
    norm_num [List.range_succ]
  · norm_num

/-- C6 (amended): for every part and every `count ≥ 1`, `add_struts`
returns the input part unchanged (to be unioned with the bars), together
with `count` radial bars evenly spaced by `360 / count` degrees with the
first bar at angle 0, each of the given width and thickness at height
`z_pos`, centred on the radius `(inner_radius + outer_radius) / 2`, with
total span `outer_radius - inner_radius + 2` (a fixed 2 mm total overlap
margin, i.e. 1 mm per end — not 2 mm per end as the original claim said). -/
theorem add_struts_radial_bars {α : Type} (part : α)
    (inner_radius outer_radius z_pos width thickness : ℝ)
    (count : ℕ) (hcount : 1 ≤ count) :
    (add_struts part inner_radius outer_radius z_pos count width thickness).1 = part ∧
    (add_struts part inner_radius outer_radius z_pos count width thickness).2.length = count ∧
    (∀ s ∈ (add_struts part inner_radius outer_radius z_pos count width thickness).2,
      s.span = outer_radius - inner_radius + 2.0 ∧ s.width = width ∧
      s.thickness = thickness ∧ s.z_pos = z_pos ∧
      s.center_radius = (inner_radius + outer_radius) / 2) ∧
    ∀ j (hj : j < (add_struts part inner_radius outer_radius z_pos count width
        thickness).2.length),
      ((add_struts part inner_radius outer_radius z_pos count width thickness).2.get
        ⟨j, hj⟩).angle = (j : ℝ) * (360 / (count : ℝ)) := by
  refine ⟨rfl, strut_bars_length inner_radius outer_radius z_pos count width thickness,
    ?_, ?_⟩
  · intro s hs
    have hs' : s ∈ strut_bars inner_radius outer_radius z_pos count width thickness := hs
    simp only [strut_bars, List.mem_map, List.mem_range] at hs'
    obtain ⟨i, _, rfl⟩ := hs'
    exact ⟨rfl, rfl, rfl, rfl, rfl⟩
  · intro j hj
    show ((strut_bars inner_radius outer_radius z_pos count width thickness).get
      ⟨j, hj⟩).angle = (j : ℝ) * (360 / (count : ℝ))
    rw [strut_bars_get]

/-- Witness for C6's amended theorem at count = 3. -/
theorem add_struts_radial_bars_witness :
    (add_struts (0 : ℕ) 5 10 1 3 2 2).1 = 0 ∧
    (add_struts (0 : ℕ) 5 10 1 3 2 2).2.length = 3 ∧
    (∀ s ∈ (add_struts (0 : ℕ) 5 10 1 3 2 2).2,
      s.span = 10 - 5 + 2.0 ∧ s.width = 2 ∧ s.thickness = 2 ∧ s.z_pos = 1 ∧
      s.center_radius = (5 + 10) / 2) ∧
    ∀ j (hj : j < (add_struts (0 : ℕ) 5 10 1 3 2 2).2.length),
      ((add_struts (0 : ℕ) 5 10 1 3 2 2).2.get ⟨j, hj⟩).angle =
        (j : ℝ) * (360 / (3 : ℕ)) :=
  add_struts_radial_bars 0 5 10 1 2 2 3 (by norm_num)

/-- C7: `nozzle_plate` produces a disc of the given diameter and
thickness with `nozzle_count` bores of diameter `nozzle_diam` subtracted
over the full thickness: a single central bore when the count is 1 and a
placement circle of radius `1.5 × nozzle_diam` when the count exceeds 1;
and in every composed stage the nozzle plate's outer diameter equals
`profile.female_socket_diameter` and its thickness equals
`throat_length_mm`. -/
theorem nozzle_plate_spec (d t nd : ℝ) (n : ℕ) (hn : 1 ≤ n)
    (profile : CassetteProfile) (flow_rate_lpm target_cutpoint : ℝ)
    (stage_name : String) (hf : 0 < flow_rate_lpm) (hc : 0 < target_cutpoint)
    (r : StageResult)
    (hr : generate_impactor_stage profile flow_rate_lpm target_cutpoint stage_name = .ok r) :
    (nozzle_plate d t nd n).diameter = d ∧
    (nozzle_plate d t nd n).thickness = t ∧
    (nozzle_plate d t nd n).bore_diameter = nd ∧
    (nozzle_plate d t nd n).bore_count = n ∧
    (nozzle_plate d t nd n).bore_depth = t ∧
    (nozzle_plate d t nd 1).bore_circle_radius = 0 ∧
    (1 < n → (nozzle_plate d t nd n).bore_circle_radius = nd * 1.5) ∧
    r.nozzle.diameter = profile.female_socket_diameter ∧
    r.nozzle.thickness = r.constraints.throat_length_mm := by
  rw [generate_impactor_stage_ok profile stage_name hf (ne_of_gt hc)] at hr
  obtain rfl := Except.ok.inj hr
  have hb : ∀ m : ℕ, (nozzle_plate d t nd m).diameter = d ∧
      (nozzle_plate d t nd m).thickness = t ∧
      (nozzle_plate d t nd m).bore_diameter = nd ∧
      (nozzle_plate d t nd m).bore_count = m ∧
      (nozzle_plate d t nd m).bore_depth = t := by
    intro m
    by_cases h1 : m = 1
    · subst h1; simp [nozzle_plate]
    · unfold nozzle_plate; rw [if_neg h1]; exact ⟨rfl, rfl, rfl, rfl, rfl⟩
  refine ⟨(hb n).1, (hb n).2.1, (hb n).2.2.1, (hb n).2.2.2.1, (hb n).2.2.2.2,
    by simp [nozzle_plate], ?_, rfl, rfl⟩
  intro hlt
  have h1 : n ≠ 1 := by omega
  unfold nozzle_plate
  rw [if_neg h1]

/-- Witness for C7 at (STANDARD_37MM, 4 LPM, 5 µm) with a 4-bore plate. -/
theorem nozzle_plate_spec_witness :
    (nozzle_plate 37.2 3.8 3.8 4).diameter = 37.2 ∧
    (nozzle_plate 37.2 3.8 3.8 4).thickness = 3.8 ∧
    (nozzle_plate 37.2 3.8 3.8 4).bore_diameter = 3.8 ∧
    (nozzle_plate 37.2 3.8 3.8 4).bore_count = 4 ∧
    (nozzle_plate 37.2 3.8 3.8 4).bore_depth = 3.8 ∧
    (nozzle_plate 37.2 3.8 3.8 1).bore_circle_radius = 0 ∧
    (1 < 4 → (nozzle_plate 37.2 3.8 3.8 4).bore_circle_radius = 3.8 * 1.5) ∧
    (stage_val STANDARD_37MM 4 5 "stage").nozzle.diameter =
      STANDARD_37MM.female_socket_diameter ∧
    (stage_val STANDARD_37MM 4 5 "stage").nozzle.thickness =
      (stage_val STANDARD_37MM 4 5 "stage").constraints.throat_length_mm :=
  nozzle_plate_spec 37.2 3.8 3.8 4 (by norm_num) STANDARD_37MM 4 5 "stage"
    (by norm_num) (by norm_num) _
    (generate_impactor_stage_ok STANDARD_37MM "stage" (by norm_num) (by norm_num))

/-- C9: both catalogue profiles satisfy
`inner_flow_diameter < male_boss_diameter < outer_diameter` and
`inner_flow_diameter < female_socket_diameter < outer_diameter`; and stage
composition only reads the profile: its result depends on nothing but the
six field values (profiles are plain immutable records, mirroring the
source's frozen dataclass). -/
theorem profile_catalogue_invariants :
    (STANDARD_37MM.inner_flow_diameter < STANDARD_37MM.male_boss_diameter ∧
     STANDARD_37MM.male_boss_diameter < STANDARD_37MM.outer_diameter ∧
     STANDARD_37MM.inner_flow_diameter < STANDARD_37MM.female_socket_diameter ∧
     STANDARD_37MM.female_socket_diameter < STANDARD_37MM.outer_diameter) ∧
    (MINIATURE_25MM.inner_flow_diameter < MINIATURE_25MM.male_boss_diameter ∧
     MINIATURE_25MM.male_boss_diameter < MINIATURE_25MM.outer_diameter ∧
     MINIATURE_25MM.inner_flow_diameter < MINIATURE_25MM.female_socket_diameter ∧
     MINIATURE_25MM.female_socket_diameter < MINIATURE_25MM.outer_diameter) ∧
    ∀ (profile : CassetteProfile) (flow_rate_lpm target_cutpoint : ℝ)
      (stage_name : String),
      generate_impactor_stage profile flow_rate_lpm target_cutpoint stage_name =
        generate_impactor_stage
          { outer_diameter := profile.outer_diameter
            inner_flow_diameter := profile.inner_flow_diameter
            male_boss_diameter := profile.male_boss_diameter
            female_socket_diameter := profile.female_socket_diameter
            interface_height := profile.interface_height
            wall_thickness := profile.wall_thickness }
          flow_rate_lpm target_cutpoint stage_name := by
  refine ⟨⟨?_, ?_, ?_, ?_⟩, ⟨?_, ?_, ?_, ?_⟩, fun p f c n => rfl⟩ <;>
    norm_num [STANDARD_37MM, MINIATURE_25MM]

/-- C3 counterexample: with the MINIATURE_25MM profile at 4 LPM / 5 µm the
derived cup radius exceeds `inner_flow_diameter / 2`
(`inner_flow_diameter < 6 × nozzle_diameter_mm`), yet
`generate_impactor_stage` succeeds and returns a normal result instead of
failing with a GeometryInfeasible error (no such error exists in the code). -/
theorem no_geometry_infeasible_check_counterexample :
    generate_impactor_stage MINIATURE_25MM 4 5 "stage" =
      .ok (stage_val MINIATURE_25MM 4 5 "stage") ∧
    MINIATURE_25MM.inner_flow_diameter <
      6 * (stage_val MINIATURE_25MM 4 5 "stage").constraints.nozzle_diameter_mm := by
  refine ⟨generate_impactor_stage_ok MINIATURE_25MM "stage" (by norm_num) (by norm_num), ?_⟩
  show (22.0 : ℝ) < 6 * (nozzle_diam_val 4 5 1 0.24 * 1000.0)
  linarith [d45_gt]

/-- C3 (amended): the engine performs no geometric feasibility check.
For every positive flow rate and cutpoint, `generate_impactor_stage`
succeeds unconditionally — even when the cup is larger than the housing
bore — and the strut span is computed unconditionally as
`inner_flow_diameter / 2 - cup_radius + 2` (which may be non-positive),
rather than failing with a GeometryInfeasible error. -/
theorem no_geometry_infeasible_check (profile : CassetteProfile)
    (flow_rate_lpm target_cutpoint : ℝ) (stage_name : String)
    (hf : 0 < flow_rate_lpm) (hc : 0 < target_cutpoint) :
    generate_impactor_stage profile flow_rate_lpm target_cutpoint stage_name =
      .ok (stage_val profile flow_rate_lpm target_cutpoint stage_name) ∧
    ∀ s ∈ (stage_val profile flow_rate_lpm target_cutpoint stage_name).assembly.struts,
      s.span = profile.inner_flow_diameter / 2 -
        (stage_val profile flow_rate_lpm target_cutpoint
          stage_name).constraints.nozzle_diameter_mm * 3.0 + 2.0 := by
  refine ⟨generate_impactor_stage_ok profile stage_name hf (ne_of_gt hc), ?_⟩
  intro s hs
  have hs' : s ∈ strut_bars
      ((constraints_val flow_rate_lpm target_cutpoint 1 1.5 1.0).nozzle_diameter_mm * 3.0)
      (profile.inner_flow_diameter / 2)
      ((constraints_val flow_rate_lpm target_cutpoint 1 1.5 1.0).jet_to_plate_mm + 10.0 -
        profile.interface_height -
        (constraints_val flow_rate_lpm target_cutpoint 1 1.5 1.0).jet_to_plate_mm)
      3 2.0 2.0 := hs
  simp only [strut_bars, List.mem_map, List.mem_range] at hs'
  obtain ⟨i, _, rfl⟩ := hs'
  rfl

/-- Witness for C3's amended theorem at the infeasible instance
(MINIATURE_25MM, 4 LPM, 5 µm). -/
theorem no_geometry_infeasible_check_witness :
    generate_impactor_stage MINIATURE_25MM 4 5 "s" =
      .ok (stage_val MINIATURE_25MM 4 5 "s") ∧
    ∀ s ∈ (stage_val MINIATURE_25MM 4 5 "s").assembly.struts,
      s.span = MINIATURE_25MM.inner_flow_diameter / 2 -
        (stage_val MINIATURE_25MM 4 5 "s").constraints.nozzle_diameter_mm * 3.0 + 2.0 :=
  no_geometry_infeasible_check MINIATURE_25MM 4 5 "s" (by norm_num) (by norm_num)

/-- C4 counterexample: the solver raises no InvalidInput.  With
`target_cutpoint = -1` it succeeds and returns the full result of cutpoint
`+1` (the cutpoint enters only squared), and with a negative flow rate the
unguarded general power `** (1/3)` is evaluated on a negative operand. -/
theorem solver_no_invalid_input_counterexample :
    get_geometric_constraints 4 (-1) 1 1.5 1 = .ok (constraints_val 4 1 1 1.5 1) ∧
    nozzle_operand (-1) 5 1 0.24 < 0 := by
  constructor
  · rw [get_geometric_constraints_ok 1.5 1 (by norm_num) (by norm_num) (by norm_num)]
    have hop : nozzle_operand 4 (-1) 1 0.24 = nozzle_operand 4 1 1 0.24 := by
      unfold nozzle_operand
      ring_nf
    have h : constraints_val 4 (-1) 1 1.5 1 = constraints_val 4 1 1 1.5 1 := by
      simp only [constraints_val, nozzle_diam_val]
      rw [hop]
    rw [h]
  · unfold nozzle_operand
    apply div_neg_of_neg_of_pos _ (nozzle_den_pos (by norm_num) (by norm_num))
    norm_num [particle_density_kgm3]

/-- C4 (amended): the solver performs no input validation and defines no
InvalidInput error.  A negative cutpoint is accepted (the result equals
the positive-cutpoint result, since the cutpoint enters only squared);
zero flow makes the downstream velocity computation fail with the host
language's division-by-zero error, not InvalidInput; and for a negative
flow rate the operand of the unguarded general power `** (1/3)` is
negative (a complex result in the host language, not an exception). -/
theorem solver_no_input_validation (flow cut s_w t_w fneg : ℝ)
    (hf : 0 < flow) (hc : cut ≠ 0) (hfneg : fneg < 0) :
    get_geometric_constraints flow (-cut) 1 s_w t_w =
      get_geometric_constraints flow cut 1 s_w t_w ∧
    get_geometric_constraints 0 cut 1 s_w t_w = .error SolverError.zeroDivision ∧
    nozzle_operand fneg cut 1 0.24 < 0 := by
  have hsq : (0 : ℝ) < (cut * 1e-6) ^ 2 := by
    have h6 : cut * 1e-6 ≠ 0 := by
      intro h
      rcases mul_eq_zero.mp h with h' | h'
      · exact hc h'
      · norm_num at h'
    positivity
  refine ⟨?_, ?_, ?_⟩
  · rw [get_geometric_constraints_ok s_w t_w hf (by simpa using hc) (by norm_num),
      get_geometric_constraints_ok s_w t_w hf hc (by norm_num)]
    have hop : nozzle_operand flow (-cut) 1 0.24 = nozzle_operand flow cut 1 0.24 := by
      unfold nozzle_operand
      ring_nf
    have h : constraints_val flow (-cut) 1 1.5 1.0 = constraints_val flow cut 1 1.5 1.0 := by
      simp only [constraints_val, nozzle_diam_val]
      rw [hop]
    simp only [constraints_val, nozzle_diam_val, hop]
  · unfold get_geometric_constraints
    rw [calculate_nozzle_diameter_ok _ _ (by norm_num) (by norm_num)]
    have h0 : nozzle_diam_val 0 cut 1 0.24 = 0 := by
      unfold nozzle_diam_val
      have hop0 : nozzle_operand 0 cut 1 0.24 = 0 := by
        unfold nozzle_operand
        norm_num
      rw [hop0]
      exact Real.zero_rpow (by norm_num)
    rw [h0]
    show calculate_reynolds 0 1 0 >>= _ = Except.error SolverError.zeroDivision
    unfold calculate_reynolds
    rw [if_pos (by norm_num)]
    rfl
  · unfold nozzle_operand
    apply div_neg_of_neg_of_pos _ (nozzle_den_pos (by norm_num) (by norm_num))
    have hρ : (0 : ℝ) < particle_density_kgm3 := by
      unfold particle_density_kgm3
      norm_num
    have hq : (fneg / 1000.0) / 60.0 < 0 := by
      apply div_neg_of_neg_of_pos _ (by norm_num)
      exact div_neg_of_neg_of_pos hfneg (by norm_num)
    exact mul_neg_of_pos_of_neg (by positivity) hq

/-- Witness for C4's amended theorem at cutpoint 1, negative flow -1. -/
theorem solver_no_input_validation_witness :
    get_geometric_constraints 4 (-1) 1 1.5 1 = get_geometric_constraints 4 1 1 1.5 1 ∧
    get_geometric_constraints 0 1 1 1.5 1 = .error SolverError.zeroDivision ∧
    nozzle_operand (-1) 1 1 0.24 < 0 :=
  solver_no_input_validation 4 1 1.5 1 (-1) (by norm_num) (by norm_num) (by norm_num)

/-- C5 counterexample: at flow 4 LPM and cutpoint 5 µm the solver's
nozzle diameter is about 3.786 mm, which is NOT within 1% of the claimed
3.87 mm. -/
theorem cutpoint_diameter_value_counterexample :
    ¬ (|(constraints_val 4 5 1 1.5 1).nozzle_diameter_mm - 3.87| ≤ 3.87 * (1 / 100)) := by
  rw [abs_le]
  intro h
  obtain ⟨h1, -⟩ := h
  have he : (constraints_val 4 5 1 1.5 1).nozzle_diameter_mm =
      nozzle_diam_val 4 5 1 0.24 * 1000.0 := rfl
  rw [he] at h1
  linarith [d45_lt]

/-- C5 (amended): with defaults, `nozzle_diameter_mm` scales as
`cutpoint^(2/3)` at fixed flow; concretely, at flow 4.0 LPM and cutpoint
5.0 µm the solver returns ≈ 3.79 mm (within 1%), and at cutpoint 10.0 µm,
same flow, ≈ 6.01 mm (within 1%) — not 3.87 mm and 6.14 mm as the original
claim stated. -/
theorem cutpoint_scaling (f c k : ℝ) (hf : 0 < f) (hc : 0 < c) (hk : 0 < k) :
    (constraints_val f (k * c) 1 1.5 1).nozzle_diameter_mm =
      k ^ ((2 : ℝ) / 3) * (constraints_val f c 1 1.5 1).nozzle_diameter_mm ∧
    |(constraints_val 4 5 1 1.5 1).nozzle_diameter_mm - 3.79| ≤ 3.79 * (1 / 100) ∧
    |(constraints_val 4 10 1 1.5 1).nozzle_diameter_mm - 6.01| ≤ 6.01 * (1 / 100) := by
  refine ⟨?_, ?_, ?_⟩
  · show nozzle_diam_val f (k * c) 1 0.24 * 1000.0 =
      k ^ ((2 : ℝ) / 3) * (nozzle_diam_val f c 1 0.24 * 1000.0)
    have hop : nozzle_operand f (k * c) 1 0.24 = k ^ 2 * nozzle_operand f c 1 0.24 := by
      unfold nozzle_operand
      ring_nf
    have hopc : (0 : ℝ) ≤ nozzle_operand f c 1 0.24 :=
      le_of_lt (nozzle_operand_pos hf (ne_of_gt hc) (by norm_num) (by norm_num))
    unfold nozzle_diam_val
    rw [hop, Real.mul_rpow (by positivity) hopc]
    have hk23 : ((k ^ 2 : ℝ)) ^ ((1 : ℝ) / 3) = k ^ ((2 : ℝ) / 3) := by
      rw [← Real.rpow_natCast k 2, ← Real.rpow_mul hk.le]
      norm_num
    rw [hk23]
    ring
  · have he : (constraints_val 4 5 1 1.5 1).nozzle_diameter_mm =
        nozzle_diam_val 4 5 1 0.24 * 1000.0 := rfl
    rw [he, abs_le]
    constructor <;> linarith [d45_gt, d45_lt]
  · have he : (constraints_val 4 10 1 1.5 1).nozzle_diameter_mm =
        nozzle_diam_val 4 10 1 0.24 * 1000.0 := rfl
    rw [he, abs_le]
    constructor <;> linarith [d410_gt, d410_lt]

/-- Witness for C5's amended theorem: doubling the cutpoint from 5 µm to
10 µm at 4 LPM multiplies the diameter by `2^(2/3)`, with the concrete
1%-bounds. -/
theorem cutpoint_scaling_witness :
    (constraints_val 4 (2 * 5) 1 1.5 1).nozzle_diameter_mm =
      2 ^ ((2 : ℝ) / 3) * (constraints_val 4 5 1 1.5 1).nozzle_diameter_mm ∧
    |(constraints_val 4 5 1 1.5 1).nozzle_diameter_mm - 3.79| ≤ 3.79 * (1 / 100) ∧
    |(constraints_val 4 10 1 1.5 1).nozzle_diameter_mm - 6.01| ≤ 6.01 * (1 / 100) :=
  cutpoint_scaling 4 5 2 (by norm_num) (by norm_num) (by norm_num)

/-- C2: for every flow > 0, cutpoint > 0 and nozzle count ≥ 1, the solver
returns `nozzle_diameter_mm = 1000 · W` with
`W = ((4 · ρ_p · d50² · C · Q) / (9 · π · μ · Stk50 · N))^(1/3)`
(ρ_p = 1000, μ = 1.81e-5, C = 1, Stk50 = 0.24, Q = flow/1000/60,
d50 = cutpoint · 1e-6), `jet_velocity_ms = Q / (N · π · (W/2)²)`,
`reynolds_number = 1.2 · U · W / μ`, `jet_to_plate_mm = d_mm · s_w_ratio`
and `throat_length_mm = d_mm · t_w_ratio`. -/
theorem solver_formula_correct (f c s_w t_w : ℝ) (N : ℕ)
    (hf : 0 < f) (hc : 0 < c) (hN : 1 ≤ N) (gc : GeometricConstraints)
    (h : get_geometric_constraints f c N s_w t_w = .ok gc) :
    gc.nozzle_diameter_mm =
      1000 * ((4 * 1000 * (c * 1e-6) ^ 2 * 1.0 * ((f / 1000) / 60)) /
        (9 * Real.pi * 1.81e-5 * 0.24 * (N : ℝ))) ^ ((1 : ℝ) / 3) ∧
    gc.jet_velocity_ms = ((f / 1000) / 60) /
      ((N : ℝ) * Real.pi * ((gc.nozzle_diameter_mm / 1000) / 2) ^ 2) ∧
    gc.reynolds_number =
      1.2 * gc.jet_velocity_ms * (gc.nozzle_diameter_mm / 1000) / 1.81e-5 ∧
    gc.jet_to_plate_mm = gc.nozzle_diameter_mm * s_w ∧
    gc.throat_length_mm = gc.nozzle_diameter_mm * t_w := by
  have hNne : N ≠ 0 := by omega
  rw [get_geometric_constraints_ok s_w t_w hf (ne_of_gt hc) hNne] at h
  obtain rfl := Except.ok.inj h
  have hbase : nozzle_operand f c N 0.24 =
      (4 * 1000 * (c * 1e-6) ^ 2 * 1.0 * ((f / 1000) / 60)) /
        (9 * Real.pi * 1.81e-5 * 0.24 * (N : ℝ)) := by
    unfold nozzle_operand particle_density_kgm3 air_viscosity
    ring_nf
  refine ⟨?_, ?_, ?_, rfl, rfl⟩
  · show nozzle_diam_val f c N 0.24 * 1000.0 = _
    unfold nozzle_diam_val
    rw [hbase]
    ring
  · show jet_velocity_val f N (nozzle_diam_val f c N 0.24) =
      ((f / 1000) / 60) /
        ((N : ℝ) * Real.pi * ((nozzle_diam_val f c N 0.24 * 1000.0 / 1000) / 2) ^ 2)
    unfold jet_velocity_val
    ring_nf
  · show reynolds_val f N (nozzle_diam_val f c N 0.24) =
      1.2 * jet_velocity_val f N (nozzle_diam_val f c N 0.24) *
        (nozzle_diam_val f c N 0.24 * 1000.0 / 1000) / 1.81e-5
    unfold reynolds_val rho_air air_viscosity
    ring_nf

/-- Witness for C2 at (4 LPM, 5 µm, one nozzle, default ratios). -/
theorem solver_formula_correct_witness :
    (constraints_val 4 5 1 1.5 1).nozzle_diameter_mm =
      1000 * ((4 * 1000 * ((5 : ℝ) * 1e-6) ^ 2 * 1.0 * (((4 : ℝ) / 1000) / 60)) /
        (9 * Real.pi * 1.81e-5 * 0.24 * ((1 : ℕ) : ℝ))) ^ ((1 : ℝ) / 3) ∧
    (constraints_val 4 5 1 1.5 1).jet_velocity_ms = (((4 : ℝ) / 1000) / 60) /
      (((1 : ℕ) : ℝ) * Real.pi *
        (((constraints_val 4 5 1 1.5 1).nozzle_diameter_mm / 1000) / 2) ^ 2) ∧
    (constraints_val 4 5 1 1.5 1).reynolds_number =
      1.2 * (constraints_val 4 5 1 1.5 1).jet_velocity_ms *
        ((constraints_val 4 5 1 1.5 1).nozzle_diameter_mm / 1000) / 1.81e-5 ∧
    (constraints_val 4 5 1 1.5 1).jet_to_plate_mm =
      (constraints_val 4 5 1 1.5 1).nozzle_diameter_mm * 1.5 ∧
    (constraints_val 4 5 1 1.5 1).throat_length_mm =
      (constraints_val 4 5 1 1.5 1).nozzle_diameter_mm * 1 :=
  solver_formula_correct 4 5 1.5 1 1 (by norm_num) (by norm_num) (by norm_num) _
    (get_geometric_constraints_ok 1.5 1 (by norm_num) (by norm_num) (by norm_num))

/-- C10: the solver inverts the forward Stokes similarity law exactly over
the reals: with `W` the solved nozzle diameter and `U` the jet velocity
returned by `calculate_reynolds`, the forward Stokes number
`(ρ_p · d50² · C · U) / (9 · μ · W)` (with `C = 1.0`) equals the
requested `stk_50`. -/
theorem stokes_roundtrip (f c stk : ℝ) (N : ℕ) (hf : 0 < f) (hc : 0 < c)
    (hN : 1 ≤ N) (hstk : 0 < stk) (W re U : ℝ)
    (hW : calculate_nozzle_diameter f c N stk = .ok W)
    (hU : calculate_reynolds f N W = .ok (re, U)) :
    (particle_density_kgm3 * (c * 1e-6) ^ 2 * 1.0 * U) /
      (9 * air_viscosity * W) = stk := by
  have hNne : N ≠ 0 := by omega
  rw [calculate_nozzle_diameter_ok f c hstk hNne] at hW
  obtain rfl := Except.ok.inj hW
  rw [calculate_reynolds_ok f hNne
    (ne_of_gt (nozzle_diam_val_pos hf (ne_of_gt hc) hNne hstk))] at hU
  injection Except.ok.inj hU with h1 h2
  subst h2
  have hop_pos : 0 < nozzle_operand f c N stk :=
    nozzle_operand_pos hf (ne_of_gt hc) hNne hstk
  have hWpos : 0 < nozzle_diam_val f c N stk :=
    nozzle_diam_val_pos hf (ne_of_gt hc) hNne hstk
  have hW3 : nozzle_diam_val f c N stk ^ (3 : ℕ) = nozzle_operand f c N stk := by
    unfold nozzle_diam_val
    rw [← Real.rpow_natCast (nozzle_operand f c N stk ^ ((1 : ℝ) / 3)) 3,
      ← Real.rpow_mul hop_pos.le]
    norm_num
  have key : nozzle_diam_val f c N stk ^ (3 : ℕ) *
      (9.0 * Real.pi * air_viscosity * stk * (N : ℝ)) =
      4.0 * particle_density_kgm3 * (c * 1e-6) ^ 2 * ((f / 1000.0) / 60.0) := by
    rw [hW3]
    unfold nozzle_operand
    exact div_mul_cancel₀ _ (ne_of_gt (nozzle_den_pos hstk hNne))
  have hπ : Real.pi ≠ 0 := Real.pi_ne_zero
  have hNr : ((N : ℕ) : ℝ) ≠ 0 := Nat.cast_ne_zero.mpr hNne
  have hμ : air_viscosity ≠ 0 := by unfold air_viscosity; norm_num
  have hρ : particle_density_kgm3 ≠ 0 := by unfold particle_density_kgm3; norm_num
  unfold jet_velocity_val
  field_simp
  linear_combination (-60000 : ℝ) * key

/-- Witness for C10 at (4 LPM, 5 µm, one nozzle, Stk50 = 0.24). -/
theorem stokes_roundtrip_witness :
    (particle_density_kgm3 * ((5 : ℝ) * 1e-6) ^ 2 * 1.0 *
        jet_velocity_val 4 1 (nozzle_diam_val 4 5 1 0.24)) /
      (9 * air_viscosity * nozzle_diam_val 4 5 1 0.24) = 0.24 :=
  stokes_roundtrip 4 5 0.24 1 (by norm_num) (by norm_num) (by norm_num) (by norm_num)
    (nozzle_diam_val 4 5 1 0.24) (reynolds_val 4 1 (nozzle_diam_val 4 5 1 0.24))
    (jet_velocity_val 4 1 (nozzle_diam_val 4 5 1 0.24))
    (calculate_nozzle_diameter_ok 4 5 (by norm_num) (by norm_num))
    (calculate_reynolds_ok 4 (by norm_num) (ne_of_gt
      (nozzle_diam_val_pos (by norm_num) (by norm_num) (by norm_num) (by norm_num))))

/-- C8: the cascade composer calls `generate_impactor_stage` exactly once
per cutpoint at the shared flow rate and (hard-coded STANDARD_37MM)
profile, collecting results in input order, naming the i-th stage (0-based
enumeration) `stage_{i+1}_{cp}um`; in particular the result list has one
stage per cutpoint, in the cutpoints' order. -/
theorem cascade_ordering (render : ℝ → String) (flow_rate : ℝ)
    (cutpoints : List ℝ) (hf : 0 < flow_rate)
    (hall : ∀ cp ∈ cutpoints, 0 < cp) :
    create_multi_stage_impactor render flow_rate cutpoints =
      .ok (cutpoints.enum.map fun ic =>
        stage_val STANDARD_37MM flow_rate ic.2 (stage_label ic.1 ic.2 render)) ∧
    (cutpoints.enum.map fun ic =>
      stage_val STANDARD_37MM flow_rate ic.2 (stage_label ic.1 ic.2 render)).length =
      cutpoints.length := by
  refine ⟨create_multi_stage_impactor_ok render cutpoints hf hall, ?_⟩
  rw [List.length_map, List.enum_length]

/-- Witness for C8 on the spec's example cascade `[10.0, 5.0, 2.5]` at 4 LPM. -/
theorem cascade_ordering_witness :
    create_multi_stage_impactor (fun _ => "cp") 4 [10.0, 5.0, 2.5] =
      .ok (([(10.0 : ℝ), 5.0, 2.5].enum).map fun ic =>
        stage_val STANDARD_37MM 4 ic.2 (stage_label ic.1 ic.2 (fun _ => "cp"))) ∧
    (([(10.0 : ℝ), 5.0, 2.5].enum).map fun ic =>
      stage_val STANDARD_37MM 4 ic.2 (stage_label ic.1 ic.2 (fun _ => "cp"))).length =
      ([(10.0 : ℝ), 5.0, 2.5]).length :=
  cascade_ordering (fun _ => "cp") 4 [10.0, 5.0, 2.5] (by norm_num)
    (by
      intro cp hcp
      simp only [List.mem_cons, List.not_mem_nil, or_false] at hcp
      rcases hcp with rfl | rfl | rfl <;> norm_num)
